import Mathlib

/-!
# Verification of the gl-mcp-python session and dispatch layer

Shallow embedding of the core of `gl_mcp`:

* `src/gl_mcp/mcp/server.py` — `MCPServerManager` (tool registry) and the
  `call_tool` / `list_tools` closures it installs on a server instance;
* `src/gl_mcp/mcp/transport.py` — the POST / DELETE handlers of the MCP
  router, the session store, and `_handle_message`;
* `src/gl_mcp/providers/base.py` — `BaseProvider` (credential lifecycle,
  namespaced tool registration) and `ProviderRegistry.initialize_all`.

Python dicts are modelled as association lists; the nondeterministic
`uuid4()` session id is passed in as an explicit `freshId` argument;
exceptions are modelled with `Except`; the `async` structure is irrelevant
to the properties and is erased.
-/

namespace GlMcp

/-- Opaque tool-call arguments (the JSON object passed as `**arguments`).
The handlers in the claims never inspect them, so a rendering as an
association list of opaque string values suffices. -/
abbrev Args := List (String × String)

/-- A content item as produced by a tool handler.  `textContent t` is
`TextContent(type="text", text=t)` from `mcp.types`; `nonContent e` is any
object lacking the `.type` / `.text` attributes, with `e` the description of
the `AttributeError` that accessing them raises during response rendering in
`_handle_message` (transport.py lines 239-241). -/
inductive ContentItem where
  | textContent (text : String)
  | nonContent (err : String)

/-- What a Python tool handler invocation does: return a `str`, return a
`list` (passed through unvalidated by `call_tool`, server.py line 77-78),
return some other object (stringified, line 80), or raise an exception with
description `e` (caught at server.py line 82). -/
inductive HandlerResult where
  | str (s : String)
  | list (l : List ContentItem)
  | other (s : String)
  | exn (e : String)

/-- A registered tool handler. -/
abbrev Handler := Args → HandlerResult

/-- `mcp.types.Tool` as constructed in `MCPServerManager.register_tool`
(server.py lines 39-43); the input schema is opaque, forwarded verbatim. -/
structure Tool where
  name : String
  description : String
  inputSchema : String
deriving DecidableEq, Repr

/-- The state of `MCPServerManager` (server.py lines 18-22): the `_tools`
list (append-only, in registration order) and the `_tool_handlers` dict.
The dict is an association list where the most recent binding for a key is
found first, matching Python dict overwrite semantics for lookup. -/
structure MCPServerManager where
  tools : List Tool
  toolHandlers : List (String × Handler)

/-- The manager produced by `MCPServerManager.__init__`. -/
def emptyManager : MCPServerManager := ⟨[], []⟩

/-- Dict lookup in `_tool_handlers`; the head of the list is the most
recent registration, so the last registration under a name wins. -/
def lookupHandler : List (String × Handler) → String → Option Handler
  | [], _ => none
  | (k, h) :: rest, n => if k = n then some h else lookupHandler rest n

/-- `MCPServerManager.register_tool` (server.py lines 24-46): appends a
`Tool` to `_tools` and (re)binds `name` in `_tool_handlers`. -/
def register_tool (m : MCPServerManager) (name description inputSchema : String)
    (handler : Handler) : MCPServerManager :=
  { tools := m.tools ++ [⟨name, description, inputSchema⟩],
    toolHandlers := (name, handler) :: m.toolHandlers }

/-- `BaseProvider.register_tool` (base.py lines 41-62): prefixes the local
name with the provider name and an underscore, then registers with the
global server manager. -/
def registerProviderTool (m : MCPServerManager) (providerName localName : String)
    (description inputSchema : String) (handler : Handler) : MCPServerManager :=
  register_tool m (providerName ++ "_" ++ localName) description inputSchema handler

/-- One call a provider makes through `BaseProvider.register_tool`. -/
structure Registration where
  provider : String
  localName : String
  description : String
  inputSchema : String
  handler : Handler

/-- The full tool name a registration presents to clients. -/
def Registration.fullName (r : Registration) : String :=
  r.provider ++ "_" ++ r.localName

/-- The `Tool` record a registration appends to `_tools`. -/
def Registration.tool (r : Registration) : Tool :=
  ⟨r.fullName, r.description, r.inputSchema⟩

/-- A sequence of provider-namespaced registrations applied in order. -/
def registerAll (m : MCPServerManager) (regs : List Registration) : MCPServerManager :=
  regs.foldl (fun acc r =>
    registerProviderTool acc r.provider r.localName r.description r.inputSchema r.handler) m

/-- The `call_tool` closure installed by `MCPServerManager.create_server`
(server.py lines 65-84): unknown names yield an "Unknown tool" text item;
a raising handler yields an "Error: " text item; string and other results
are wrapped, list results pass through unvalidated. -/
def call_tool (m : MCPServerManager) (name : String) (arguments : Args) :
    List ContentItem :=
  match lookupHandler m.toolHandlers name with
  | none => [ContentItem.textContent ("Unknown tool: " ++ name)]
  | some handler =>
      match handler arguments with
      | HandlerResult.str s => [ContentItem.textContent s]
      | HandlerResult.list l => l
      | HandlerResult.other s => [ContentItem.textContent s]
      | HandlerResult.exn e => [ContentItem.textContent ("Error: " ++ e)]

/-- A rendered content entry `{"type": c.type, "text": c.text}` as built in
`_handle_message` (transport.py line 240). -/
structure RenderedContent where
  type : String
  text : String
deriving DecidableEq, Repr

/-- Rendering one content item: accessing `.type` / `.text` on a non-content
object raises. -/
def renderItem : ContentItem → Except String RenderedContent
  | ContentItem.textContent t => Except.ok ⟨"text", t⟩
  | ContentItem.nonContent e => Except.error e

/-- Rendering the whole content list (the comprehension at transport.py
lines 239-243); the first bad item aborts with its exception. -/
def renderContent : List ContentItem → Except String (List RenderedContent)
  | [] => Except.ok []
  | c :: rest =>
      match renderItem c with
      | Except.error e => Except.error e
      | Except.ok r =>
          match renderContent rest with
          | Except.error e => Except.error e
          | Except.ok rs => Except.ok (r :: rs)

/-- `serverInfo` of the bootstrap result (transport.py lines 199-202). -/
structure ServerInfo where
  name : String
  version : String
deriving DecidableEq, Repr

/-- The `result` payloads `_handle_message` can build. `initResult` carries
the protocol version, server info and the `capabilities.tools.listChanged`
flag; `emptyResult` is the `{}` of `ping`. -/
inductive RpcResult where
  | initResult (protocolVersion : String) (serverInfo : ServerInfo)
      (toolsListChanged : Bool)
  | toolsList (tools : List Tool)
  | toolsCall (content : List RenderedContent)
  | emptyResult
deriving DecidableEq, Repr

/-- A JSON-RPC response envelope: success with a result, or an error with a
code and message.  The id mirrors `message.get("id")` (`none` = absent or
null). -/
inductive RpcResponse where
  | result (id : Option Int) (r : RpcResult)
  | error (id : Option Int) (code : Int) (message : String)
deriving DecidableEq, Repr

/-- The `params` object of a request; both fields use `.get` with defaults
in `_handle_message` (transport.py lines 231-232). -/
structure Params where
  name : Option String
  arguments : Option Args

/-- A JSON-RPC request object (a parsed dict body).  `method`, `id`,
`params` are all read with `.get`, hence optional. -/
structure Message where
  method : Option String
  id : Option Int
  params : Option Params

/-- A successfully parsed POST body: a dict, or some other JSON value (on
which `body.get(...)` raises an `AttributeError` described by `err`). -/
inductive ParsedBody where
  | obj (m : Message)
  | nonObj (err : String)

/-- The raw POST body: `request.json()` either raises (malformed) or
yields a parsed value. -/
inductive RawBody where
  | malformed
  | parsed (b : ParsedBody)

/-- `body.get("id") if isinstance(body, dict) else None`
(transport.py lines 74 and 103). -/
def parsedId : ParsedBody → Option Int
  | ParsedBody.obj m => m.id
  | ParsedBody.nonObj _ => none

/-- `_is_initialize_request` (transport.py lines 171-175): the body is a
dict whose `method` equals `"initialize"`. -/
def isInitRequest : ParsedBody → Bool
  | ParsedBody.obj m => m.method = some "initialize"
  | ParsedBody.nonObj _ => false

/-- `_handle_message` (transport.py lines 178-261), minus the transport
envelope.  Returns `none` inside `ok` for notifications; `Except.error`
models an exception escaping to the dispatch boundary (only possible while
rendering non-content items of a `tools/call` result). -/
def handleMessage (server : MCPServerManager) (m : Message) :
    Except String (Option RpcResponse) :=
  let method := m.method.getD ""
  let params := m.params.getD ⟨none, none⟩
  if method = "initialize" then
    Except.ok (some (RpcResponse.result m.id
      (RpcResult.initResult "2024-11-05" ⟨"gl-mcp-python", "0.1.0"⟩ false)))
  else if method = "initialized" then
    Except.ok none
  else if method = "tools/list" then
    Except.ok (some (RpcResponse.result m.id (RpcResult.toolsList server.tools)))
  else if method = "tools/call" then
    match renderContent (call_tool server (params.name.getD "") (params.arguments.getD [])) with
    | Except.error e => Except.error e
    | Except.ok content =>
        Except.ok (some (RpcResponse.result m.id (RpcResult.toolsCall content)))
  else if method = "ping" then
    Except.ok (some (RpcResponse.result m.id RpcResult.emptyResult))
  else
    Except.ok (some (RpcResponse.error m.id (-32601) ("Method not found: " ++ method)))

/-- `_handle_message(session["server"], body)` on an arbitrary parsed body:
a non-dict body raises `AttributeError` at `message.get` (transport.py
line 188), inside the dispatch try block. -/
def handleBody (server : MCPServerManager) : ParsedBody → Except String (Option RpcResponse)
  | ParsedBody.obj m => handleMessage server m
  | ParsedBody.nonObj err => Except.error err

/-- A session entry (transport.py lines 62-66); the pending message queue
only feeds the SSE stream and is not modelled. -/
structure Session where
  server : MCPServerManager
  user_roles : List String

/-- The `_sessions` dict (transport.py line 19), insertion ordered. -/
abbrev SessionStore := List (String × Session)

/-- Dict lookup in `_sessions`. -/
def lookupSession : SessionStore → String → Option Session
  | [], _ => none
  | (k, s) :: rest, sid => if k = sid then some s else lookupSession rest sid

/-- `del _sessions[session_id]` (transport.py line 162). -/
def eraseSession : SessionStore → String → SessionStore
  | [], _ => []
  | (k, s) :: rest, sid =>
      if k = sid then eraseSession rest sid else (k, s) :: eraseSession rest sid

/-- `len(_sessions)` (transport.py line 266). -/
def get_session_count (store : SessionStore) : Nat := store.length

/-- The truthiness test `if session_id and session_id in _sessions`
(transport.py line 52, also line 161): the header must be present,
non-empty (Python: `"" ` is falsy) and name a stored session. -/
def resolveSession (store : SessionStore) (header : Option String) :
    Option (String × Session) :=
  match header with
  | none => none
  | some sid =>
      if sid = "" then none
      else
        match lookupSession store sid with
        | none => none
        | some s => some (sid, s)

/-- The body of an HTTP response from the MCP router. -/
inductive RespBody where
  | empty
  | rpc (r : RpcResponse)
deriving DecidableEq, Repr

/-- An HTTP response: status code, body, and the `mcp-session-id` header
when one is set. -/
structure HttpResp where
  status : Nat
  body : RespBody
  sessionHeader : Option String
deriving DecidableEq, Repr

/-- Result of a POST: the HTTP response and the session store afterwards. -/
structure PostOut where
  resp : HttpResp
  sessions : SessionStore

/-- The message-processing phase of `mcp_post` (transport.py lines 80-107):
dispatch inside a try; an escaping exception becomes a 500 with code
-32603 and the exception description (and no session header); a
notification becomes a 202; otherwise 200 with the envelope, echoing the
session id header. -/
def processBody (store : SessionStore) (sid : String) (session : Session)
    (body : ParsedBody) : PostOut :=
  match handleBody session.server body with
  | Except.error e =>
      ⟨⟨500, RespBody.rpc (RpcResponse.error (parsedId body) (-32603) e), none⟩, store⟩
  | Except.ok none => ⟨⟨202, RespBody.empty, some sid⟩, store⟩
  | Except.ok (some r) => ⟨⟨200, RespBody.rpc r, some sid⟩, store⟩

/-- `mcp_post` (transport.py lines 33-107).  `manager` is the global server
manager backing `create_mcp_server`; `userRoles` is what the optional
roles extractor yields; `freshId` is the `uuid4()` value minted if a
session is created. -/
def mcp_post (store : SessionStore) (manager : MCPServerManager)
    (userRoles : List String) (freshId : String)
    (header : Option String) (raw : RawBody) : PostOut :=
  match raw with
  | RawBody.malformed =>
      ⟨⟨400, RespBody.rpc (RpcResponse.error none (-32700) "Parse error"), none⟩, store⟩
  | RawBody.parsed body =>
      match resolveSession store header with
      | some (sid, session) => processBody store sid session body
      | none =>
          if isInitRequest body then
            let session : Session := ⟨manager, userRoles⟩
            processBody (store ++ [(freshId, session)]) freshId session body
          else
            ⟨⟨400, RespBody.rpc (RpcResponse.error (parsedId body) (-32600) "Invalid session"),
              none⟩, store⟩

/-- `mcp_delete` (transport.py lines 156-166): same truthy session check;
a known session is deleted with a 200, otherwise 400 and no change. -/
def mcp_delete (store : SessionStore) (header : Option String) :
    HttpResp × SessionStore :=
  match resolveSession store header with
  | some (sid, _) => (⟨200, RespBody.empty, none⟩, eraseSession store sid)
  | none => (⟨400, RespBody.empty, none⟩, store)

/-- A handler that returns a plain string, for concrete instantiations. -/
def wHandlerOk : Handler := fun _ => HandlerResult.str "ok"

/-- A handler that raises, modelling a failing tool. -/
def wHandlerExn : Handler := fun _ => HandlerResult.exn "boom"

/-- A handler returning a list containing a non-content object, on which
response rendering raises at the dispatch boundary. -/
def wHandlerBad : Handler :=
  fun _ => HandlerResult.list [ContentItem.nonContent "no attribute text"]

/-- A concrete registration sequence in the style of the jira provider. -/
def wRegs : List Registration :=
  [⟨"jira", "search_issues", "Search JIRA issues using JQL query", "schema1", wHandlerOk⟩,
   ⟨"jira", "boom", "Raises on call", "schema2", wHandlerExn⟩,
   ⟨"jira", "bad", "Returns a non-content object", "schema3", wHandlerBad⟩]

/-- The manager holding `wRegs`. -/
def wManager : MCPServerManager := registerAll emptyManager wRegs

/-- A concrete session bound to `wManager`. -/
def wSession : Session := ⟨wManager, []⟩

/-- A concrete session store holding one session under `"sid-1"`. -/
def wStore : SessionStore := [("sid-1", wSession)]

/-- First colliding handler for the duplicate-name scenario. -/
def ceHandler1 : Handler := fun _ => HandlerResult.str "one"

/-- Second colliding handler for the duplicate-name scenario. -/
def ceHandler2 : Handler := fun _ => HandlerResult.str "two"

/-- Two registrations that collide on the full name `"p_t"`. -/
def ceRegs : List Registration :=
  [⟨"p", "t", "d1", "s1", ceHandler1⟩, ⟨"p", "t", "d2", "s2", ceHandler2⟩]

/-- A provider's immutable configuration (base.py lines 12-34): its name,
its optional `required_role`, and — since `load_credentials` must return a
bool — the value that credential probe yields in this process. -/
structure BaseProvider where
  name : String
  required_role : Option String
  loadCredentialsAnswer : Bool
deriving DecidableEq, Repr

/-- A provider's mutable credential state (base.py lines 23-25). -/
structure ProviderState where
  credentials_loaded : Bool
  credentials_valid : Bool
deriving DecidableEq, Repr

/-- The state set by `BaseProvider.__init__`. -/
def freshProviderState : ProviderState := ⟨false, false⟩

/-- The abstract-method invocations a provider initialization performs,
recorded as an event trace. -/
inductive ProviderCall where
  | loadCredentials
  | registerTools
deriving DecidableEq, Repr

/-- `BaseProvider.initialize` (base.py lines 64-82): if credentials were
already loaded, returns the cached validity and does nothing; otherwise
marks them loaded, runs `load_credentials`, and on success runs
`register_tools`.  Returns (result, new state, calls made). -/
def providerInit (p : BaseProvider) (st : ProviderState) :
    Bool × ProviderState × List ProviderCall :=
  if st.credentials_loaded then
    (st.credentials_valid, st, [])
  else
    let valid := p.loadCredentialsAnswer
    (valid, ⟨true, valid⟩,
      if valid then [ProviderCall.loadCredentials, ProviderCall.registerTools]
      else [ProviderCall.loadCredentials])

/-- The `is_available` property (base.py lines 84-87). -/
def is_available (st : ProviderState) : Bool := st.credentials_valid

/-- `if provider.required_role` — Python truthiness of the optional role
string: `None` and `""` are falsy (base.py line 113). -/
def requiredRoleTruthy (p : BaseProvider) : Bool :=
  match p.required_role with
  | none => false
  | some r => r ≠ ""

/-- One entry of `ProviderRegistry._providers` together with the
provider's current credential state. -/
structure RegistryEntry where
  name : String
  provider : BaseProvider
  state : ProviderState
deriving DecidableEq, Repr

/-- The body of the `initialize_all` loop for one provider (base.py lines
112-121): if the provider's `required_role` is truthy, a role list was
supplied, and the role is absent, record `False` and skip (no calls);
otherwise run `initialize`.  Returns (recorded bool, calls made). -/
def initEntry (e : RegistryEntry) (userRoles : Option (List String)) :
    Bool × List ProviderCall :=
  match e.provider.required_role, userRoles with
  | some r, some roles =>
      if r ≠ "" ∧ r ∉ roles then (false, [])
      else ((providerInit e.provider e.state).1, (providerInit e.provider e.state).2.2)
  | _, _ => ((providerInit e.provider e.state).1, (providerInit e.provider e.state).2.2)

/-- `ProviderRegistry.initialize_all` (base.py lines 101-123): iterates the
providers in registration order, recording under each provider's name the
outcome for that provider (dict keys in the registry are unique, so the
results dict is this association list). -/
def initAll (entries : List RegistryEntry) (userRoles : Option (List String)) :
    List (String × (Bool × List ProviderCall)) :=
  entries.map (fun e => (e.name, initEntry e userRoles))

/-- A concrete provider with a declared role and valid credentials, in the
style of the jira provider (jira.py lines 14-18). -/
def wProvider : BaseProvider := ⟨"jira", some "gl-admin", true⟩

/-- A concrete registry entry for `wProvider` in its fresh state. -/
def wEntry : RegistryEntry := ⟨"jira", wProvider, freshProviderState⟩

/- ## Helper lemmas -/

/-- A non-empty header naming a stored session resolves to it. -/
theorem resolveSession_some (store : SessionStore) (sid : String) (session : Session)
    (hsid : sid ≠ "") (hlook : lookupSession store sid = some session) :
    resolveSession store (some sid) = some (sid, session) := by
  simp [resolveSession, hsid, hlook]

/-- When the session header does not resolve and the body is a dict whose
method is not `"initialize"`, the POST returns the 400 invalid-session
envelope, echoing the body id, and leaves the store untouched. -/
theorem mcp_post_no_session (store : SessionStore) (manager : MCPServerManager)
    (userRoles : List String) (freshId : String) (header : Option String) (m : Message)
    (hm : m.method ≠ some "initialize")
    (hres : resolveSession store header = none) :
    mcp_post store manager userRoles freshId header (RawBody.parsed (ParsedBody.obj m))
      = ⟨⟨400, RespBody.rpc (RpcResponse.error m.id (-32600) "Invalid session"), none⟩,
          store⟩ := by
  simp [mcp_post, hres, isInitRequest, hm, parsedId]

/-- Deleting a key removes it from lookup. -/
theorem lookupSession_erase_self (store : SessionStore) (sid : String) :
    lookupSession (eraseSession store sid) sid = none := by
  induction store with
  | nil => rfl
  | cons kv rest ih =>
      obtain ⟨k, s⟩ := kv
      by_cases hk : k = sid <;> simp [eraseSession, hk, lookupSession, ih]

/-- Deleting a key leaves every other key's lookup unchanged. -/
theorem lookupSession_erase_ne (store : SessionStore) (sid k : String)
    (hne : k ≠ sid) :
    lookupSession (eraseSession store sid) k = lookupSession store k := by
  induction store with
  | nil => rfl
  | cons kv rest ih =>
      obtain ⟨k0, s⟩ := kv
      by_cases h0 : k0 = sid
      · subst h0
        have : k0 ≠ k := fun h => hne h.symm
        simp [eraseSession, lookupSession, this, ih]
      · by_cases h1 : k0 = k <;> simp [eraseSession, h0, lookupSession, h1, hne, ih]

/-- The tools list after a registration sequence: one appended `Tool` per
call, in call order. -/
theorem tools_registerAll (regs : List Registration) (m : MCPServerManager) :
    (registerAll m regs).tools = m.tools ++ regs.map Registration.tool := by
  induction regs generalizing m with
  | nil => simp [registerAll]
  | cons r rs ih =>
      simp only [registerAll, List.foldl_cons] at ih ⊢
      rw [ih]
      simp [registerProviderTool, register_tool, Registration.tool, Registration.fullName]

/-- After appending a registration, handler lookup for its full name finds
its handler: the most recent registration under a name wins. -/
theorem lookupHandler_last (regs : List Registration) (r : Registration) :
    lookupHandler (registerAll emptyManager (regs ++ [r])).toolHandlers r.fullName
      = some r.handler := by
  rw [registerAll, List.foldl_append]
  simp [registerProviderTool, register_tool, lookupHandler, Registration.fullName]

/-- A provider-namespaced full name is never the empty string. -/
theorem fullName_ne_empty (a b : String) : a ++ "_" ++ b ≠ "" := by
  intro h
  have h2 := congrArg String.length h
  simp [String.length_append] at h2
  exact absurd h2.1.2 (by decide)

/-- A registry populated only through provider registration has no handler
bound to the empty name. -/
theorem lookupHandler_empty_name (regs : List Registration) (m : MCPServerManager) :
    lookupHandler (registerAll m regs).toolHandlers ""
      = lookupHandler m.toolHandlers "" := by
  induction regs generalizing m with
  | nil => simp [registerAll]
  | cons r rs ih =>
      simp only [registerAll, List.foldl_cons] at ih ⊢
      rw [ih]
      simp [registerProviderTool, register_tool, lookupHandler,
        (fullName_ne_empty r.provider r.localName)]

/- ## Claims -/

/-- C1: For every JSON-RPC request whose method is not `"initialize"`, if
the `mcp-session-id` header is missing or names no session in the session
store, the POST handler returns HTTP 400 with a JSON-RPC error envelope of
code -32600, and no session is created; this holds for every method name,
including unrecognized ones. -/
theorem C1_invalid_session_rejected (store : SessionStore) (manager : MCPServerManager)
    (userRoles : List String) (freshId : String) (header : Option String) (m : Message)
    (hm : m.method ≠ some "initialize")
    (hres : header = none ∨ ∃ sid, header = some sid ∧ lookupSession store sid = none) :
    mcp_post store manager userRoles freshId header (RawBody.parsed (ParsedBody.obj m))
      = ⟨⟨400, RespBody.rpc (RpcResponse.error m.id (-32600) "Invalid session"), none⟩,
          store⟩ := by
  apply mcp_post_no_session store manager userRoles freshId header m hm
  rcases hres with h | ⟨sid, rfl, hlook⟩
  · simp [h, resolveSession]
  · by_cases hs : sid = "" <;> simp [resolveSession, hs, hlook]

/-- Witness for C1 at a concrete unknown-session request. -/
theorem C1_witness :
    ((some "tools/list" : Option String) ≠ some "initialize")
    ∧ mcp_post wStore wManager [] "fresh-id" (some "ghost")
        (RawBody.parsed (ParsedBody.obj ⟨some "tools/list", some 2, none⟩))
      = ⟨⟨400, RespBody.rpc (RpcResponse.error (some 2) (-32600) "Invalid session"), none⟩,
          wStore⟩ :=
  ⟨by decide,
   C1_invalid_session_rejected wStore wManager [] "fresh-id" (some "ghost")
     ⟨some "tools/list", some 2, none⟩ (by decide) (Or.inr ⟨"ghost", rfl, rfl⟩)⟩

/-- C2: For every active session and every tool name not present in the
registry's handler map, a `tools/call` request for that name returns an
HTTP 200 JSON-RPC success envelope whose content is a single text item
exactly `"Unknown tool: <name>"`, never a protocol-level error envelope. -/
theorem C2_unknown_tool_reports_text (store : SessionStore) (manager : MCPServerManager)
    (userRoles : List String) (freshId sid : String) (session : Session)
    (mid : Option Int) (n : String) (args : Option Args)
    (hsid : sid ≠ "") (hlook : lookupSession store sid = some session)
    (hn : lookupHandler session.server.toolHandlers n = none) :
    mcp_post store manager userRoles freshId (some sid)
        (RawBody.parsed (ParsedBody.obj ⟨some "tools/call", mid, some ⟨some n, args⟩⟩))
      = ⟨⟨200, RespBody.rpc (RpcResponse.result mid
          (RpcResult.toolsCall [⟨"text", "Unknown tool: " ++ n⟩])), some sid⟩, store⟩ := by
  have hres := resolveSession_some store sid session hsid hlook
  simp [mcp_post, hres, processBody, handleBody, handleMessage, call_tool, hn,
    renderContent, renderItem]

/-- Witness for C2: calling the unregistered tool `"nope"`. -/
theorem C2_witness :
    ("sid-1" : String) ≠ ""
    ∧ lookupSession wStore "sid-1" = some wSession
    ∧ lookupHandler wSession.server.toolHandlers "nope" = none
    ∧ mcp_post wStore wManager [] "fresh-id" (some "sid-1")
        (RawBody.parsed (ParsedBody.obj
          ⟨some "tools/call", some 7, some ⟨some "nope", some []⟩⟩))
      = ⟨⟨200, RespBody.rpc (RpcResponse.result (some 7)
          (RpcResult.toolsCall [⟨"text", "Unknown tool: " ++ "nope"⟩])), some "sid-1"⟩,
          wStore⟩ :=
  ⟨by decide, rfl, rfl,
   C2_unknown_tool_reports_text wStore wManager [] "fresh-id" "sid-1" wSession
     (some 7) "nope" (some []) (by decide) rfl rfl⟩

/-- C3: For every registered tool whose handler raises an exception when
invoked via `tools/call`, the request still returns an HTTP 200 JSON-RPC
success envelope whose content is a single text item beginning with
`"Error:"`; the failure never surfaces as HTTP 500 or a protocol-level
error envelope. -/
theorem C3_handler_failure_downgraded (store : SessionStore) (manager : MCPServerManager)
    (userRoles : List String) (freshId sid : String) (session : Session)
    (mid : Option Int) (n : String) (args : Args) (h : Handler) (e : String)
    (hsid : sid ≠ "") (hlook : lookupSession store sid = some session)
    (hh : lookupHandler session.server.toolHandlers n = some h)
    (hraise : h args = HandlerResult.exn e) :
    mcp_post store manager userRoles freshId (some sid)
        (RawBody.parsed (ParsedBody.obj ⟨some "tools/call", mid, some ⟨some n, some args⟩⟩))
      = ⟨⟨200, RespBody.rpc (RpcResponse.result mid
          (RpcResult.toolsCall [⟨"text", "Error: " ++ e⟩])), some sid⟩, store⟩
    ∧ ∃ rest, ("Error: " ++ e) = "Error:" ++ rest := by
  have hres := resolveSession_some store sid session hsid hlook
  constructor
  · simp [mcp_post, hres, processBody, handleBody, handleMessage, call_tool, hh, hraise,
      renderContent, renderItem]
  · refine ⟨" " ++ e, ?_⟩
    apply String.ext
    simp [String.data_append]

/-- Witness for C3: calling the raising tool `"jira_boom"`. -/
theorem C3_witness :
    ("sid-1" : String) ≠ ""
    ∧ lookupSession wStore "sid-1" = some wSession
    ∧ lookupHandler wSession.server.toolHandlers "jira_boom" = some wHandlerExn
    ∧ wHandlerExn [] = HandlerResult.exn "boom"
    ∧ (mcp_post wStore wManager [] "fresh-id" (some "sid-1")
        (RawBody.parsed (ParsedBody.obj
          ⟨some "tools/call", some 8, some ⟨some "jira_boom", some []⟩⟩))
      = ⟨⟨200, RespBody.rpc (RpcResponse.result (some 8)
          (RpcResult.toolsCall [⟨"text", "Error: " ++ "boom"⟩])), some "sid-1"⟩, wStore⟩
      ∧ ∃ rest, ("Error: " ++ "boom") = "Error:" ++ rest) :=
  ⟨by decide, rfl, rfl, rfl,
   C3_handler_failure_downgraded wStore wManager [] "fresh-id" "sid-1" wSession
     (some 8) "jira_boom" [] wHandlerExn "boom" (by decide) rfl rfl rfl⟩

/-- C5: For every request that resolved to an active session, if an
exception is raised while handling it (outside the tool-handler boundary),
the POST handler returns HTTP 500 with a JSON-RPC error envelope of code
-32603 carrying the exception's description and the original request id,
and the session remains in the session store. -/
theorem C5_internal_error_keeps_session (store : SessionStore)
    (manager : MCPServerManager) (userRoles : List String) (freshId sid : String)
    (session : Session) (m : Message) (e : String)
    (hsid : sid ≠ "") (hlook : lookupSession store sid = some session)
    (herr : handleMessage session.server m = Except.error e) :
    mcp_post store manager userRoles freshId (some sid)
        (RawBody.parsed (ParsedBody.obj m))
      = ⟨⟨500, RespBody.rpc (RpcResponse.error m.id (-32603) e), none⟩, store⟩
    ∧ lookupSession (mcp_post store manager userRoles freshId (some sid)
        (RawBody.parsed (ParsedBody.obj m))).sessions sid = some session := by
  have hres := resolveSession_some store sid session hsid hlook
  have hmain : mcp_post store manager userRoles freshId (some sid)
      (RawBody.parsed (ParsedBody.obj m))
      = ⟨⟨500, RespBody.rpc (RpcResponse.error m.id (-32603) e), none⟩, store⟩ := by
    simp [mcp_post, hres, processBody, handleBody, herr, parsedId]
  exact ⟨hmain, by rw [hmain]; exact hlook⟩

/-- Witness for C5: the tool `"jira_bad"` returns a non-content item, so
rendering raises at the dispatch boundary. -/
theorem C5_witness :
    ("sid-1" : String) ≠ ""
    ∧ lookupSession wStore "sid-1" = some wSession
    ∧ handleMessage wSession.server
        ⟨some "tools/call", some 3, some ⟨some "jira_bad", some []⟩⟩
      = Except.error "no attribute text"
    ∧ (mcp_post wStore wManager [] "fresh-id" (some "sid-1")
        (RawBody.parsed (ParsedBody.obj
          ⟨some "tools/call", some 3, some ⟨some "jira_bad", some []⟩⟩))
      = ⟨⟨500, RespBody.rpc (RpcResponse.error (some 3) (-32603) "no attribute text"),
          none⟩, wStore⟩
      ∧ lookupSession (mcp_post wStore wManager [] "fresh-id" (some "sid-1")
          (RawBody.parsed (ParsedBody.obj
            ⟨some "tools/call", some 3, some ⟨some "jira_bad", some []⟩⟩))).sessions
          "sid-1" = some wSession) :=
  ⟨by decide, rfl, rfl,
   C5_internal_error_keeps_session wStore wManager [] "fresh-id" "sid-1" wSession
     ⟨some "tools/call", some 3, some ⟨some "jira_bad", some []⟩⟩
     "no attribute text" (by decide) rfl rfl⟩

/-- C6: DELETE with a header naming a known session removes exactly that
session and returns HTTP 200; DELETE with a missing or unknown session id
returns HTTP 400 and changes nothing; after a successful DELETE of session
id S, every subsequent non-initialize POST presenting S is rejected as an
unknown session (HTTP 400, code -32600) — a terminated session is never
reactivated. -/
theorem C6_delete_terminates_session (store : SessionStore) (sid : String)
    (session : Session)
    (hsid : sid ≠ "") (hlook : lookupSession store sid = some session) :
    (mcp_delete store (some sid)).1 = ⟨200, RespBody.empty, none⟩
    ∧ lookupSession (mcp_delete store (some sid)).2 sid = none
    ∧ (∀ k, k ≠ sid →
        lookupSession (mcp_delete store (some sid)).2 k = lookupSession store k)
    ∧ (∀ hdr, resolveSession store hdr = none →
        mcp_delete store hdr = (⟨400, RespBody.empty, none⟩, store))
    ∧ (∀ manager userRoles freshId (m : Message), m.method ≠ some "initialize" →
        mcp_post (mcp_delete store (some sid)).2 manager userRoles freshId (some sid)
            (RawBody.parsed (ParsedBody.obj m))
          = ⟨⟨400, RespBody.rpc (RpcResponse.error m.id (-32600) "Invalid session"),
              none⟩, (mcp_delete store (some sid)).2⟩) := by
  have hres := resolveSession_some store sid session hsid hlook
  have hdel : mcp_delete store (some sid)
      = (⟨200, RespBody.empty, none⟩, eraseSession store sid) := by
    simp [mcp_delete, hres]
  refine ⟨by rw [hdel], ?_, ?_, ?_, ?_⟩
  · rw [hdel]; exact lookupSession_erase_self store sid
  · intro k hk; rw [hdel]; exact lookupSession_erase_ne store sid k hk
  · intro hdr hnone; simp [mcp_delete, hnone]
  · intro manager userRoles freshId m hm
    apply mcp_post_no_session _ manager userRoles freshId (some sid) m hm
    rw [hdel]
    simp [resolveSession, hsid, lookupSession_erase_self store sid]

/-- Witness for C6: deleting the known session `"sid-1"`. -/
theorem C6_witness :
    ("sid-1" : String) ≠ ""
    ∧ lookupSession wStore "sid-1" = some wSession
    ∧ ((mcp_delete wStore (some "sid-1")).1 = ⟨200, RespBody.empty, none⟩
       ∧ lookupSession (mcp_delete wStore (some "sid-1")).2 "sid-1" = none
       ∧ (∀ k, k ≠ "sid-1" →
           lookupSession (mcp_delete wStore (some "sid-1")).2 k = lookupSession wStore k)
       ∧ (∀ hdr, resolveSession wStore hdr = none →
           mcp_delete wStore hdr = (⟨400, RespBody.empty, none⟩, wStore))
       ∧ (∀ manager userRoles freshId (m : Message), m.method ≠ some "initialize" →
           mcp_post (mcp_delete wStore (some "sid-1")).2 manager userRoles freshId
               (some "sid-1") (RawBody.parsed (ParsedBody.obj m))
             = ⟨⟨400, RespBody.rpc (RpcResponse.error m.id (-32600) "Invalid session"),
                 none⟩, (mcp_delete wStore (some "sid-1")).2⟩)) :=
  ⟨by decide, rfl,
   C6_delete_terminates_session wStore "sid-1" wSession (by decide) rfl⟩

/-- C9: A POST whose method is `"initialize"` and whose `mcp-session-id`
header names an existing active session does not create a new session: the
existing session is reused, the same session id is echoed in the response
header, the session count is unchanged, and the standard bootstrap result
(protocol version, server info, capabilities) is returned with HTTP 200. -/
theorem C9_reuse_existing_session (store : SessionStore) (manager : MCPServerManager)
    (userRoles : List String) (freshId sid : String) (session : Session)
    (mid : Option Int) (ps : Option Params)
    (hsid : sid ≠ "") (hlook : lookupSession store sid = some session) :
    mcp_post store manager userRoles freshId (some sid)
        (RawBody.parsed (ParsedBody.obj ⟨some "initialize", mid, ps⟩))
      = ⟨⟨200, RespBody.rpc (RpcResponse.result mid
          (RpcResult.initResult "2024-11-05" ⟨"gl-mcp-python", "0.1.0"⟩ false)),
          some sid⟩, store⟩
    ∧ get_session_count (mcp_post store manager userRoles freshId (some sid)
        (RawBody.parsed (ParsedBody.obj ⟨some "initialize", mid, ps⟩))).sessions
      = get_session_count store := by
  have hres := resolveSession_some store sid session hsid hlook
  have hmain : mcp_post store manager userRoles freshId (some sid)
      (RawBody.parsed (ParsedBody.obj ⟨some "initialize", mid, ps⟩))
      = ⟨⟨200, RespBody.rpc (RpcResponse.result mid
          (RpcResult.initResult "2024-11-05" ⟨"gl-mcp-python", "0.1.0"⟩ false)),
          some sid⟩, store⟩ := by
    simp [mcp_post, hres, processBody, handleBody, handleMessage]
  exact ⟨hmain, by rw [hmain]⟩

/-- Witness for C9: re-sending `initialize` on the live session `"sid-1"`. -/
theorem C9_witness :
    ("sid-1" : String) ≠ ""
    ∧ lookupSession wStore "sid-1" = some wSession
    ∧ (mcp_post wStore wManager [] "fresh-id" (some "sid-1")
        (RawBody.parsed (ParsedBody.obj ⟨some "initialize", some 1, none⟩))
      = ⟨⟨200, RespBody.rpc (RpcResponse.result (some 1)
          (RpcResult.initResult "2024-11-05" ⟨"gl-mcp-python", "0.1.0"⟩ false)),
          some "sid-1"⟩, wStore⟩
      ∧ get_session_count (mcp_post wStore wManager [] "fresh-id" (some "sid-1")
          (RawBody.parsed (ParsedBody.obj ⟨some "initialize", some 1, none⟩))).sessions
        = get_session_count wStore) :=
  ⟨by decide, rfl,
   C9_reuse_existing_session wStore wManager [] "fresh-id" "sid-1" wSession
     (some 1) none (by decide) rfl⟩

/-- C4 counterexample: registering the same full name `"p_t"` twice leaves
two entries with that name in the tools list presented by `list()`, so
names are not unique within the registry and the later registration does
not replace the earlier listed entry. -/
theorem C4_counterexample :
    ((registerAll emptyManager ceRegs).tools.map Tool.name) = ["p_t", "p_t"]
    ∧ ¬ ((registerAll emptyManager ceRegs).tools.map Tool.name).Nodup := by
  refine ⟨rfl, ?_⟩
  intro hnd
  rw [show ((registerAll emptyManager ceRegs).tools.map Tool.name) = ["p_t", "p_t"]
    from rfl] at hnd
  exact absurd hnd (by decide)

/-- C4 amended: each tool name presented to clients equals the provider
name, an underscore, and the local name; the handler map is unique per
name with the last registration's handler winning on a collision; and
`list()` returns one entry per registration call, in registration order —
so a name collision leaves duplicate listed entries rather than replacing
the earlier one. -/
theorem C4_registration_shape (regs : List Registration) (r : Registration) :
    (registerAll emptyManager regs).tools = regs.map Registration.tool
    ∧ (registerAll emptyManager regs).tools.map Tool.name
        = regs.map Registration.fullName
    ∧ lookupHandler (registerAll emptyManager (regs ++ [r])).toolHandlers r.fullName
        = some r.handler := by
  refine ⟨?_, ?_, lookupHandler_last regs r⟩
  · rw [tools_registerAll]; rfl
  · rw [tools_registerAll]
    show List.map Tool.name (List.map Registration.tool regs) = _
    rw [List.map_map]
    rfl

/-- C7: Provider initialization is idempotent: from the fresh state, the
first call runs `load_credentials` exactly once and runs `register_tools`
exactly when that returns true; any call on an already-loaded state
returns the cached validity with no further calls; and `is_available`
equals the last computed validity. -/
theorem C7_provider_init_idempotent (p : BaseProvider) :
    (providerInit p freshProviderState).1 = p.loadCredentialsAnswer
    ∧ (providerInit p freshProviderState).2.1
        = ⟨true, p.loadCredentialsAnswer⟩
    ∧ List.count ProviderCall.loadCredentials
        (providerInit p freshProviderState).2.2 = 1
    ∧ List.count ProviderCall.registerTools
        (providerInit p freshProviderState).2.2
        = (if p.loadCredentialsAnswer then 1 else 0)
    ∧ (∀ st : ProviderState, st.credentials_loaded = true →
        providerInit p st = (st.credentials_valid, st, []))
    ∧ providerInit p (providerInit p freshProviderState).2.1
        = ((providerInit p freshProviderState).1,
           (providerInit p freshProviderState).2.1, [])
    ∧ is_available (providerInit p freshProviderState).2.1
        = (providerInit p freshProviderState).1 := by
  by_cases h : p.loadCredentialsAnswer
    <;> refine ⟨?_, ?_, ?_, ?_, ?_, ?_, ?_⟩
    <;> simp [providerInit, freshProviderState, is_available, h]

/-- Witness for C7 at the concrete jira-style provider. -/
theorem C7_witness :
    (providerInit wProvider freshProviderState).1 = wProvider.loadCredentialsAnswer
    ∧ (providerInit wProvider freshProviderState).2.1
        = ⟨true, wProvider.loadCredentialsAnswer⟩
    ∧ List.count ProviderCall.loadCredentials
        (providerInit wProvider freshProviderState).2.2 = 1
    ∧ List.count ProviderCall.registerTools
        (providerInit wProvider freshProviderState).2.2
        = (if wProvider.loadCredentialsAnswer then 1 else 0)
    ∧ (∀ st : ProviderState, st.credentials_loaded = true →
        providerInit wProvider st = (st.credentials_valid, st, []))
    ∧ providerInit wProvider (providerInit wProvider freshProviderState).2.1
        = ((providerInit wProvider freshProviderState).1,
           (providerInit wProvider freshProviderState).2.1, [])
    ∧ is_available (providerInit wProvider freshProviderState).2.1
        = (providerInit wProvider freshProviderState).1 :=
  C7_provider_init_idempotent wProvider

/-- C8: In `initialize_all(user_roles)` with a supplied role list, every
provider with a truthy declared `required_role` absent from the list is
recorded as false with `load_credentials` never invoked; every other
provider has its initialization run and its outcome recorded under its
name. -/
theorem C8_role_gate (entries : List RegistryEntry) (roles : List String)
    (e : RegistryEntry) (he : e ∈ entries) :
    (e.name, initEntry e (some roles)) ∈ initAll entries (some roles)
    ∧ (∀ r, e.provider.required_role = some r → r ≠ "" → r ∉ roles →
        initEntry e (some roles) = (false, [])
        ∧ ProviderCall.loadCredentials ∉ (initEntry e (some roles)).2)
    ∧ (requiredRoleTruthy e.provider = false →
        initEntry e (some roles)
          = ((providerInit e.provider e.state).1,
             (providerInit e.provider e.state).2.2))
    ∧ (∀ r, e.provider.required_role = some r → r ∈ roles →
        initEntry e (some roles)
          = ((providerInit e.provider e.state).1,
             (providerInit e.provider e.state).2.2)) := by
  refine ⟨List.mem_map_of_mem _ he, ?_, ?_, ?_⟩
  · intro r hr hne hnot
    have hskip : initEntry e (some roles) = (false, []) := by
      simp [initEntry, hr, hne, hnot]
    exact ⟨hskip, by rw [hskip]; simp⟩
  · intro hfalse
    match hr : e.provider.required_role with
    | none => simp [initEntry, hr]
    | some r =>
        have : r = "" := by
          by_contra hne
          simp [requiredRoleTruthy, hr, hne] at hfalse
        subst this
        simp [initEntry, hr]
  · intro r hr hin
    simp [initEntry, hr, hin]

/-- Witness for C8: the jira-style provider requires `"gl-admin"`, absent
from the supplied role list, so it is gated off without credential I/O. -/
theorem C8_witness :
    wEntry ∈ [wEntry]
    ∧ ((wEntry.name, initEntry wEntry (some ["user"])) ∈ initAll [wEntry] (some ["user"])
       ∧ (∀ r, wEntry.provider.required_role = some r → r ≠ "" → r ∉ ["user"] →
           initEntry wEntry (some ["user"]) = (false, [])
           ∧ ProviderCall.loadCredentials ∉ (initEntry wEntry (some ["user"])).2)
       ∧ (requiredRoleTruthy wEntry.provider = false →
           initEntry wEntry (some ["user"])
             = ((providerInit wEntry.provider wEntry.state).1,
                (providerInit wEntry.provider wEntry.state).2.2))
       ∧ (∀ r, wEntry.provider.required_role = some r → r ∈ ["user"] →
           initEntry wEntry (some ["user"])
             = ((providerInit wEntry.provider wEntry.state).1,
                (providerInit wEntry.provider wEntry.state).2.2))) :=
  ⟨by decide, C8_role_gate [wEntry] ["user"] wEntry (by decide)⟩

/-- C10: For every active session whose registry was populated only via
provider registrations, a `tools/call` whose params omit the `"name"`
field is treated as a call to the empty tool name and returns an HTTP 200
success envelope with content text `"Unknown tool: "` — the empty name is
never registered, since every registered name carries a provider prefix
followed by an underscore. -/
theorem C10_missing_name_unknown_tool (regs : List Registration)
    (store : SessionStore) (manager : MCPServerManager) (userRoles : List String)
    (freshId sid : String) (session : Session) (mid : Option Int) (args : Option Args)
    (hserver : session.server = registerAll emptyManager regs)
    (hsid : sid ≠ "") (hlook : lookupSession store sid = some session) :
    mcp_post store manager userRoles freshId (some sid)
        (RawBody.parsed (ParsedBody.obj ⟨some "tools/call", mid, some ⟨none, args⟩⟩))
      = ⟨⟨200, RespBody.rpc (RpcResponse.result mid
          (RpcResult.toolsCall [⟨"text", "Unknown tool: "⟩])), some sid⟩, store⟩ := by
  have hres := resolveSession_some store sid session hsid hlook
  have hempty : lookupHandler session.server.toolHandlers "" = none := by
    rw [hserver, lookupHandler_empty_name]
    rfl
  simp [mcp_post, hres, processBody, handleBody, handleMessage, call_tool, hempty,
    renderContent, renderItem]

/-- Witness for C10: omitting `params.name` on the live session. -/
theorem C10_witness :
    wSession.server = registerAll emptyManager wRegs
    ∧ ("sid-1" : String) ≠ ""
    ∧ lookupSession wStore "sid-1" = some wSession
    ∧ mcp_post wStore wManager [] "fresh-id" (some "sid-1")
        (RawBody.parsed (ParsedBody.obj ⟨some "tools/call", some 9, some ⟨none, some []⟩⟩))
      = ⟨⟨200, RespBody.rpc (RpcResponse.result (some 9)
          (RpcResult.toolsCall [⟨"text", "Unknown tool: "⟩])), some "sid-1"⟩, wStore⟩ :=
  ⟨rfl, by decide, rfl,
   C10_missing_name_unknown_tool wRegs wStore wManager [] "fresh-id" "sid-1" wSession
     (some 9) (some []) rfl (by decide) rfl⟩

end GlMcp
